import Mathlib

/-!
Verification of the Myanmar voice-dictation app (src/app.py).

The app is a single Streamlit script.  Its only non-trivial control flow is
the function transcribe_with_ai (retry loop with exponential backoff around
an HTTP POST) and the per-rerun session-state updates (audio deduplication
by filename+size, draft append/replace, reset, save-to-library, restore).

We embed the script shallowly: the sequence of HTTP outcomes is an
environment (a function from attempt index to outcome), the retry loop is a
structural recursion that also records a trace (number of POST requests made
and the list of sleep durations), and the UI handlers are pure transitions
on a session-state record.  The request body (URL, prompt, base64 payload)
does not influence any control flow or return value of the loop, so it is
not modelled; the audio bytes and language name are kept as parameters for
fidelity.
-/

namespace VoiceApp

/-- One candidate of a 200 response body; its field is the string reached by
result.candidates[0].content.parts[0].text in the source. -/
structure Candidate where
  text : String
  deriving DecidableEq

/-- An HTTP response as the source consumes it: a numeric status code, the
optional candidates list of the JSON body (none when the key is absent), and
the raw response text used in error messages. -/
structure HttpResponse where
  status_code : Nat
  candidates : Option (List Candidate)
  text : String
  deriving DecidableEq

/-- The outcome of one requests.post call: either a response or a raised
exception carrying its message string. -/
inductive Attempt where
  | exn (msg : String)
  | resp (r : HttpResponse)
  deriving DecidableEq

/-- The observable behaviour of one call of transcribe_with_ai: the returned
string, the number of POST attempts performed, and the sleep durations in
chronological order. -/
structure RunResult where
  result : String
  requests : Nat
  sleeps : List Nat
  deriving DecidableEq

/-- max_retries = 5 in the source. -/
def max_retries : Nat := 5

/-- Message returned on a 200 response whose body has no non-empty
candidates list (src/app.py line 87). -/
def noSpeechMsg : String := "⚠️ AI processed the file but found no transcribable speech."

/-- Message returned on a 403 response (src/app.py line 96). -/
def accessDeniedMsg : String :=
  "⚠️ API Access Denied (403). Please wait a moment and try again. This is usually a temporary connection issue."

/-- Message returned after the loop exhausts all retries (src/app.py line 106). -/
def timeoutMsg : String :=
  "⚠️ Connection timed out. The story recording might be too long or the internet is slow."

/-- Message returned on any status other than 200, 429, 403 (line 99). -/
def apiErrorMsg (status : Nat) (body : String) : String :=
  "⚠️ API Error (" ++ toString status ++ "): " ++ body

/-- Message returned when an exception is raised on the final attempt (line 103). -/
def systemErrorMsg (e : String) : String :=
  "⚠️ System error: " ++ e

/-- Python str.strip on the candidate text: drop whitespace from both ends. -/
def stripText (s : String) : String :=
  String.mk (((s.data.dropWhile Char.isWhitespace).reverse.dropWhile Char.isWhitespace).reverse)

/-- Account one retried attempt: the request happened, then time.sleep(2^i)
ran before the next iteration whose trace is rest. -/
def addSleepReq (i : Nat) (rest : RunResult) : RunResult :=
  ⟨rest.result, rest.requests + 1, 2 ^ i :: rest.sleeps⟩

/-- The for-loop of transcribe_with_ai (src/app.py lines 76-106).  i is the
current loop index, rem the number of iterations the range still allows;
env gives the outcome of the POST of each attempt index.  Falling out of the
loop returns the timeout message. -/
def runFrom (env : Nat → Attempt) : Nat → Nat → RunResult
  | _, 0 => ⟨timeoutMsg, 0, []⟩
  | i, rem + 1 =>
    match env i with
    | .exn e =>
      if i = max_retries - 1 then ⟨systemErrorMsg e, 1, []⟩
      else addSleepReq i (runFrom env (i + 1) rem)
    | .resp r =>
      if r.status_code = 200 then
        match r.candidates with
        | some (c :: _) => ⟨stripText c.text, 1, []⟩
        | _ => ⟨noSpeechMsg, 1, []⟩
      else if r.status_code = 429 then
        addSleepReq i (runFrom env (i + 1) rem)
      else if r.status_code = 403 then
        ⟨accessDeniedMsg, 1, []⟩
      else
        ⟨apiErrorMsg r.status_code r.text, 1, []⟩

/-- transcribe_with_ai (src/app.py lines 41-106).  The audio bytes and the
language name only shape the request body, which no claim depends on; the
control flow is driven entirely by the HTTP outcomes env. -/
def transcribe_with_ai (audio_bytes : List Nat) (language_name : String)
    (env : Nat → Attempt) : RunResult :=
  runFrom env 0 max_retries

/-- An attempt on which the loop body does not return: a raised exception or
a 429 response. -/
def retryable : Attempt → Bool
  | .exn _ => true
  | .resp r => r.status_code == 429

/-- An attempt that is a rate-limit (429) response. -/
def is429 : Attempt → Bool
  | .exn _ => false
  | .resp r => r.status_code == 429

/-- Boolean test that the character list l begins with the pattern p. -/
def leadsWith : List Char → List Char → Bool
  | [], _ => true
  | _ :: _, [] => false
  | a :: as, b :: bs => a == b && leadsWith as bs

/-- Boolean test that the pattern occurs somewhere in the character list. -/
def hasSub (pat : List Char) : List Char → Bool
  | [] => leadsWith pat []
  | b :: bs => leadsWith pat (b :: bs) || hasSub pat bs

/-- The error marker the app prepends to every failure message. -/
def warnMark : String := "⚠️"

/-- The string begins with the error marker. -/
def startsWithWarn (s : String) : Bool := leadsWith warnMark.data s.data

/-- Python's (warnMark in s): the marker occurs somewhere in s; this is the
failure test of src/app.py line 143. -/
def hasWarn (s : String) : Bool := hasSub warnMark.data s.data

example : startsWithWarn timeoutMsg = true := by decide
example : hasWarn timeoutMsg = true := by decide
example : hasWarn "hello" = false := by decide
example : stripText "  hello there " = "hello there" := by decide
example :
    (transcribe_with_ai [] "" (fun _ => Attempt.resp ⟨429, none, ""⟩)).requests = 5 := by
  decide

/-- A history entry is the dict the save handler builds (src/app.py lines
188-193): string keys to string values, in insertion order. -/
abbrev HistoryEntry := List (String × String)

/-- The dict literal appended by the save handler. -/
def mkHistoryEntry (title text lang date : String) : HistoryEntry :=
  [("title", title), ("text", text), ("lang", lang), ("date", date)]

/-- The st.session_state fields the script initialises (src/app.py lines
32-39). -/
structure SessionState where
  history : List HistoryEntry
  current_text : String
  last_processed_audio_hash : Option String
  reset_key : Nat
  deriving DecidableEq

/-- The session state right after initialisation. -/
def initialState : SessionState := ⟨[], "", none, 0⟩

/-- An uploaded audio clip as far as the dedup key reads it. -/
structure AudioFile where
  name : String
  size : Nat
  deriving DecidableEq

/-- current_hash (src/app.py line 136): the f-string filename_size. -/
def audioHash (f : AudioFile) : String := f.name ++ "_" ++ toString f.size

/-- Draft update on a successful transcription (src/app.py lines 147-151):
append with a blank line when the draft is non-empty, else replace. -/
def appendDraft (cur result : String) : String :=
  if cur ≠ "" then cur ++ "\n\n" ++ result else result

/-- The dictate-tab handler for a present audio file (src/app.py lines
135-155).  Returns the new state and whether transcribe_with_ai was
invoked. -/
def processAudio (st : SessionState) (f : AudioFile) (env : Nat → Attempt)
    (lang : String) (audio_bytes : List Nat) : SessionState × Bool :=
  let h := audioHash f
  if st.last_processed_audio_hash ≠ some h then
    let result := (transcribe_with_ai audio_bytes lang env).result
    if hasWarn result then
      (st, true)
    else
      ({ st with
          current_text := appendDraft st.current_text result,
          last_processed_audio_hash := some h }, true)
  else
    (st, false)

/-- The Reset Draft button handler (src/app.py lines 173-177). -/
def resetDraft (st : SessionState) : SessionState :=
  { st with
      current_text := "",
      last_processed_audio_hash := none,
      reset_key := st.reset_key + 1 }

/-- The Save to Library handler (src/app.py lines 187-193); the save tab
only offers it when the draft is non-empty (line 183). -/
def saveToLibrary (st : SessionState) (title lang date : String) : SessionState :=
  if st.current_text ≠ "" then
    { st with history := st.history ++ [mkHistoryEntry title st.current_text lang date] }
  else st

/-- The draft text area writes the edited value back (src/app.py line 160). -/
def editDraft (st : SessionState) (s : String) : SessionState :=
  { st with current_text := s }

/-- The Restore this Draft button of the library tab (src/app.py lines
202-208): the entries are displayed reversed and indexed by idx. -/
def restoreDraft (st : SessionState) (idx : Nat) : SessionState :=
  match st.history.reverse.get? idx with
  | some item =>
    match item.lookup "text" with
    | some t => { st with current_text := t }
    | none => st
  | none => st

/-- Every state-mutating interaction of one script rerun. -/
inductive Op where
  | dictate (f : AudioFile) (env : Nat → Attempt) (lang : String) (audio_bytes : List Nat)
  | edit (s : String)
  | copyStory
  | reset
  | save (title lang date : String)
  | restore (idx : Nat)

/-- The state transition of one interaction. -/
def applyOp (st : SessionState) : Op → SessionState
  | .dictate f env lang ab => (processAudio st f env lang ab).1
  | .edit s => editDraft st s
  | .copyStory => st
  | .reset => resetDraft st
  | .save title lang date => saveToLibrary st title lang date
  | .restore idx => restoreDraft st idx

/-- A well-formed 200 response whose body carries one candidate text. -/
def okBody (txt : String) : HttpResponse := ⟨200, some [⟨txt⟩], ""⟩

/-- Every attempt succeeds with the transcript txt. -/
def envOk (txt : String) : Nat → Attempt := fun _ => Attempt.resp (okBody txt)

/-- Every attempt is rate limited. -/
def env429 : Nat → Attempt := fun _ => Attempt.resp ⟨429, none, ""⟩

/-- Every attempt fails with a 500 response. -/
def env500 : Nat → Attempt := fun _ => Attempt.resp ⟨500, none, "server error"⟩

/-- Every attempt fails with a 403 response. -/
def env403 : Nat → Attempt := fun _ => Attempt.resp ⟨403, none, ""⟩

/-- A concrete uploaded clip. -/
def fileA : AudioFile := ⟨"audio_a.wav", 3⟩

/-- A second clip with a different dedup key. -/
def fileB : AudioFile := ⟨"audio_b.wav", 7⟩

/-- A genuine transcript that happens to contain the error marker. -/
def storyWarnText : String := "The road sign read ⚠️ bridge out ahead"

/-- Every attempt succeeds, returning storyWarnText as the transcript. -/
def envWarnStory : Nat → Attempt := fun _ => Attempt.resp (okBody storyWarnText)

/-! ## Lemmas about the retry loop -/

theorem leadsWith_append (p l m : List Char) (h : leadsWith p l = true) :
    leadsWith p (l ++ m) = true := by
  induction p generalizing l with
  | nil => rfl
  | cons a as ih =>
    cases l with
    | nil => simp [leadsWith] at h
    | cons b bs =>
      simp only [leadsWith, Bool.and_eq_true] at h
      simp only [List.cons_append, leadsWith, Bool.and_eq_true]
      exact ⟨h.1, ih bs h.2⟩

theorem startsWithWarn_append (s t : String)
    (h : startsWithWarn s = true) : startsWithWarn (s ++ t) = true := by
  unfold startsWithWarn at h ⊢
  rw [String.data_append]
  exact leadsWith_append _ _ _ h

theorem runFrom_requests_le (env : Nat → Attempt) (rem i : Nat) :
    (runFrom env i rem).requests ≤ rem := by
  induction rem generalizing i with
  | zero => simp [runFrom]
  | succ n ih =>
    rw [runFrom]
    cases env i with
    | exn e =>
      dsimp only
      split
      · simp
      · simpa [addSleepReq] using ih (i + 1)
    | resp r =>
      dsimp only
      split
      · split <;> simp
      · split
        · simpa [addSleepReq] using ih (i + 1)
        · split <;> simp

theorem runFrom_retry (env : Nat → Attempt) (rem i j : Nat)
    (hj : j + 1 < (runFrom env i rem).requests) :
    retryable (env (i + j)) = true ∧
      (runFrom env i rem).sleeps.get? j = some (2 ^ (i + j)) := by
  induction rem generalizing i j with
  | zero => simp [runFrom] at hj
  | succ n ih =>
    rw [runFrom] at hj ⊢
    cases henv : env i with
    | exn e =>
      rw [henv] at hj
      dsimp only at hj ⊢
      by_cases hlast : i = max_retries - 1
      · simp [hlast] at hj
      · simp only [hlast, if_false, addSleepReq] at hj ⊢
        cases j with
        | zero =>
          refine ⟨by simp [retryable, henv], ?_⟩
          simp
        | succ k =>
          have hk : k + 1 < (runFrom env (i + 1) n).requests := by omega
          have := ih (i + 1) k hk
          have harith : i + 1 + k = i + (k + 1) := by omega
          constructor
          · rw [← harith]
            exact this.1
          · rw [← harith]
            simpa [addSleepReq] using this.2
    | resp r =>
      rw [henv] at hj
      dsimp only at hj ⊢
      by_cases h200 : r.status_code = 200
      · rw [if_pos h200] at hj
        cases hc : r.candidates with
        | none => simp [hc] at hj
        | some cs =>
          cases cs with
          | nil => simp [hc] at hj
          | cons c cs0 => simp [hc] at hj
      · rw [if_neg h200] at hj ⊢
        by_cases h429 : r.status_code = 429
        · rw [if_pos h429] at hj ⊢
          cases j with
          | zero =>
            refine ⟨by simp [retryable, henv, h429], ?_⟩
            simp [addSleepReq]
          | succ k =>
            have hk : k + 1 < (runFrom env (i + 1) n).requests := by
              simp only [addSleepReq] at hj
              omega
            have := ih (i + 1) k hk
            have harith : i + 1 + k = i + (k + 1) := by omega
            constructor
            · rw [← harith]
              exact this.1
            · rw [← harith]
              simpa [addSleepReq] using this.2
        · rw [if_neg h429] at hj
          by_cases h403 : r.status_code = 403
          · simp [h403] at hj
          · simp [h403] at hj

theorem startsWithWarn_systemErrorMsg (e : String) :
    startsWithWarn (systemErrorMsg e) = true := by
  unfold systemErrorMsg
  apply startsWithWarn_append
  decide

theorem startsWithWarn_apiErrorMsg (status : Nat) (body : String) :
    startsWithWarn (apiErrorMsg status body) = true := by
  unfold apiErrorMsg
  apply startsWithWarn_append
  apply startsWithWarn_append
  apply startsWithWarn_append
  decide

theorem runFrom_result_shape (env : Nat → Attempt) (rem i : Nat) :
    startsWithWarn (runFrom env i rem).result = true ∨
    ∃ c cs t, env (i + (runFrom env i rem).requests - 1) =
        Attempt.resp ⟨200, some (c :: cs), t⟩ ∧
      (runFrom env i rem).result = stripText c.text := by
  induction rem generalizing i with
  | zero =>
    left
    rw [runFrom]
    decide
  | succ n ih =>
    rw [runFrom]
    cases henv : env i with
    | exn e =>
      dsimp only
      by_cases hlast : i = max_retries - 1
      · rw [if_pos hlast]
        left
        exact startsWithWarn_systemErrorMsg e
      · rw [if_neg hlast]
        simp only [addSleepReq]
        rcases ih (i + 1) with hw | ⟨c, cs, t, hresp, hres⟩
        · left
          exact hw
        · right
          refine ⟨c, cs, t, ?_, hres⟩
          rwa [show i + ((runFrom env (i + 1) n).requests + 1) - 1 =
              i + 1 + (runFrom env (i + 1) n).requests - 1 from by omega]
    | resp r =>
      obtain ⟨sc, cands, tx⟩ := r
      dsimp only
      by_cases h200 : sc = 200
      · rw [if_pos h200]
        cases hc : cands with
        | none =>
          left
          decide
        | some cs0 =>
          cases cs0 with
          | nil =>
            left
            decide
          | cons c cs =>
            right
            refine ⟨c, cs, tx, ?_, rfl⟩
            subst h200
            subst hc
            simpa using henv
      · rw [if_neg h200]
        by_cases h429 : sc = 429
        · rw [if_pos h429]
          simp only [addSleepReq]
          rcases ih (i + 1) with hw | ⟨c, cs, t, hresp, hres⟩
          · left
            exact hw
          · right
            refine ⟨c, cs, t, ?_, hres⟩
            rwa [show i + ((runFrom env (i + 1) n).requests + 1) - 1 =
                i + 1 + (runFrom env (i + 1) n).requests - 1 from by omega]
        · rw [if_neg h429]
          by_cases h403 : sc = 403
          · rw [if_pos h403]
            left
            decide
          · rw [if_neg h403]
            left
            exact startsWithWarn_apiErrorMsg sc tx

theorem runFrom_success (env : Nat → Attempt) (rem i k : Nat) (c : Candidate)
    (cs : List Candidate) (t : String)
    (hrem : i + rem = max_retries) (hk : k < rem)
    (hret : ∀ j, j < k → retryable (env (i + j)) = true)
    (h200 : env (i + k) = Attempt.resp ⟨200, some (c :: cs), t⟩) :
    (runFrom env i rem).result = stripText c.text ∧
      (runFrom env i rem).requests = k + 1 := by
  induction rem generalizing i k with
  | zero => omega
  | succ n ih =>
    rw [runFrom]
    cases k with
    | zero =>
      simp only [Nat.add_zero] at h200
      rw [h200]
      dsimp only
      simp
    | succ k0 =>
      have hm : max_retries = 5 := rfl
      have hr0 : retryable (env i) = true := by simpa using hret 0 (by omega)
      cases henv : env i with
      | exn e =>
        have hlast : ¬ i = max_retries - 1 := by omega
        dsimp only
        rw [if_neg hlast]
        simp only [addSleepReq]
        have hrec := ih (i + 1) k0 (by omega) (by omega)
          (fun j hj => by
            have hr := hret (j + 1) (by omega)
            rwa [show i + (j + 1) = i + 1 + j from by omega] at hr)
          (by rwa [show i + (k0 + 1) = i + 1 + k0 from by omega] at h200)
        exact ⟨hrec.1, by rw [hrec.2]⟩
      | resp r =>
        rw [henv] at hr0
        have h429 : r.status_code = 429 := by simpa [retryable] using hr0
        have h200ne : ¬ r.status_code = 200 := by omega
        dsimp only
        rw [if_neg h200ne, if_pos h429]
        simp only [addSleepReq]
        have hrec := ih (i + 1) k0 (by omega) (by omega)
          (fun j hj => by
            have hr := hret (j + 1) (by omega)
            rwa [show i + (j + 1) = i + 1 + j from by omega] at hr)
          (by rwa [show i + (k0 + 1) = i + 1 + k0 from by omega] at h200)
        exact ⟨hrec.1, by rw [hrec.2]⟩

theorem runFrom_all429 (env : Nat → Attempt) (rem i : Nat)
    (h : ∀ j, j < rem → is429 (env (i + j)) = true) :
    (runFrom env i rem).result = timeoutMsg ∧ (runFrom env i rem).requests = rem := by
  induction rem generalizing i with
  | zero => simp [runFrom]
  | succ n ih =>
    have h0 : is429 (env i) = true := by simpa using h 0 (by omega)
    rw [runFrom]
    cases henv : env i with
    | exn e =>
      rw [henv] at h0
      simp [is429] at h0
    | resp r =>
      rw [henv] at h0
      have h429 : r.status_code = 429 := by simpa [is429] using h0
      have h200ne : ¬ r.status_code = 200 := by omega
      dsimp only
      rw [if_neg h200ne, if_pos h429]
      have hrec := ih (i + 1) (fun j hj => by
        have hx := h (j + 1) (by omega)
        rwa [show i + (j + 1) = i + 1 + j from by omega] at hx)
      simp only [addSleepReq]
      exact ⟨hrec.1, by rw [hrec.2]⟩

/-! ## Claims -/

/-- C1: for every audio input and every sequence of HTTP outcomes,
transcribe_with_ai performs at most 5 POST attempts; every attempt that is
followed by another one is retryable (a 429 response or a raised
exception) and is followed by a sleep of 2^i seconds before attempt i+1;
an attempt that is not retryable ends the loop immediately. -/
theorem claim_C1 (audio_bytes : List Nat) (lang : String) (env : Nat → Attempt) :
    (transcribe_with_ai audio_bytes lang env).requests ≤ 5 ∧
    (∀ i, i + 1 < (transcribe_with_ai audio_bytes lang env).requests →
      retryable (env i) = true) ∧
    (∀ i, i + 1 < (transcribe_with_ai audio_bytes lang env).requests →
      (transcribe_with_ai audio_bytes lang env).sleeps.get? i = some (2 ^ i)) ∧
    (∀ i, i < (transcribe_with_ai audio_bytes lang env).requests →
      retryable (env i) = false →
      (transcribe_with_ai audio_bytes lang env).requests = i + 1) := by
  unfold transcribe_with_ai
  refine ⟨runFrom_requests_le env max_retries 0, ?_, ?_, ?_⟩
  · intro i hi
    have h := runFrom_retry env max_retries 0 i hi
    simpa using h.1
  · intro i hi
    have h := runFrom_retry env max_retries 0 i hi
    simpa using h.2
  · intro i hi hnr
    by_contra hne
    have hlt : i + 1 < (runFrom env 0 max_retries).requests := by omega
    have h := (runFrom_retry env max_retries 0 i hlt).1
    rw [Nat.zero_add, hnr] at h
    simp at h

/-- Witness for C1 at a concrete 500-response environment: the first
attempt is not retryable and the loop stops after exactly one request. -/
theorem claim_C1_witness :
    (transcribe_with_ai [] "" env500).requests ≤ 5 ∧
    retryable (env500 0) = false ∧
    (transcribe_with_ai [] "" env500).requests = 0 + 1 ∧
    (transcribe_with_ai [] "" env500).sleeps = [] := by
  refine ⟨(claim_C1 [] "" env500).1, by decide, ?_, by decide⟩
  exact (claim_C1 [] "" env500).2.2.2 0 (by decide) (by decide)

/-- C3: every call of transcribe_with_ai either returns the stripped text
of a well-formed 200 response received at its final request (the success
case) or returns a free-text string that starts with the marker of the
error messages; it never raises and never returns a structured error. -/
theorem claim_C3 (audio_bytes : List Nat) (lang : String) (env : Nat → Attempt) :
    startsWithWarn (transcribe_with_ai audio_bytes lang env).result = true ∨
    ∃ c cs t, env ((transcribe_with_ai audio_bytes lang env).requests - 1) =
        Attempt.resp ⟨200, some (c :: cs), t⟩ ∧
      (transcribe_with_ai audio_bytes lang env).result = stripText c.text := by
  have h := runFrom_result_shape env max_retries 0
  simpa using h

/-- C4: when all five attempts return 429, exactly 5 requests are made and
the fixed timeout message is returned. -/
theorem claim_C4 (audio_bytes : List Nat) (lang : String) (env : Nat → Attempt)
    (h : ∀ i, i < 5 → is429 (env i) = true) :
    (transcribe_with_ai audio_bytes lang env).requests = 5 ∧
    (transcribe_with_ai audio_bytes lang env).result =
      "⚠️ Connection timed out. The story recording might be too long or the internet is slow." := by
  have hr := runFrom_all429 env max_retries 0 (fun j hj => by simpa using h j hj)
  exact ⟨hr.2, hr.1⟩

/-- Witness for C4 at the constant 429 environment. -/
theorem claim_C4_witness :
    is429 (env429 0) = true ∧
    (transcribe_with_ai [] "" env429).requests = 5 ∧
    (transcribe_with_ai [] "" env429).result =
      "⚠️ Connection timed out. The story recording might be too long or the internet is slow." := by
  refine ⟨by decide, ?_, ?_⟩
  · exact (claim_C4 [] "" env429 (fun i _ => rfl)).1
  · exact (claim_C4 [] "" env429 (fun i _ => rfl)).2

/-- C5: when the attempts before index k are all retryable and attempt k
returns status 200 with a non-empty candidates list, transcribe_with_ai
returns the whitespace-stripped text of the first candidate's first part
and makes no further attempt after k. -/
theorem claim_C5 (audio_bytes : List Nat) (lang : String) (env : Nat → Attempt)
    (k : Nat) (c : Candidate) (cs : List Candidate) (t : String)
    (hk : k < 5)
    (hret : ∀ j, j < k → retryable (env j) = true)
    (h200 : env k = Attempt.resp ⟨200, some (c :: cs), t⟩) :
    (transcribe_with_ai audio_bytes lang env).result = stripText c.text ∧
    (transcribe_with_ai audio_bytes lang env).requests = k + 1 := by
  exact runFrom_success env max_retries 0 k c cs t rfl hk
    (fun j hj => by simpa using hret j hj) (by simpa using h200)

/-- Witness for C5: an immediate success whose candidate text carries
surrounding whitespace. -/
theorem claim_C5_witness :
    (transcribe_with_ai [] "" (envOk " hello ")).result = "hello" ∧
    (transcribe_with_ai [] "" (envOk " hello ")).requests = 0 + 1 := by
  have h := claim_C5 [] "" (envOk " hello ") 0 ⟨" hello "⟩ [] "" (by decide)
    (fun j hj => absurd hj (Nat.not_lt_zero j)) rfl
  refine ⟨?_, h.2⟩
  rw [h.1]
  decide

/-- C2 counterexample: the dedup key only remembers the most recently
processed clip.  Clip fileA is transcribed, clip fileB is transcribed, and
then fileA — although already processed earlier in the session — is sent
to the transcription backend again. -/
theorem claim_C2_counterexample :
    (processAudio initialState fileA (envOk "first take") "English (US)" []).2 = true ∧
    (processAudio initialState fileA (envOk "first take") "English (US)" []).1.current_text
      = "first take" ∧
    (processAudio
        (processAudio
          (processAudio initialState fileA (envOk "first take") "English (US)" []).1
          fileB (envOk "second take") "English (US)" []).1
        fileA (envOk "third take") "English (US)" []).2 = true := by
  decide

/-- C2 (amended): a clip whose key equals the last processed key is not
sent to the transcription backend; a clip whose key differs from the last
processed key is sent. -/
theorem claim_C2 (st : SessionState) (f : AudioFile) (env : Nat → Attempt)
    (lang : String) (ab : List Nat) :
    (st.last_processed_audio_hash = some (audioHash f) →
      processAudio st f env lang ab = (st, false)) ∧
    (st.last_processed_audio_hash ≠ some (audioHash f) →
      (processAudio st f env lang ab).2 = true) := by
  constructor
  · intro h
    simp [processAudio, h]
  · intro h
    by_cases hw : hasWarn (transcribe_with_ai ab lang env).result
    · simp [processAudio, h, hw]
    · simp [processAudio, h, hw]

/-- Witness for C2 (amended): processing fileA and offering the same clip
again skips the backend, while a fresh state sends it. -/
theorem claim_C2_witness :
    processAudio (processAudio initialState fileA (envOk "first take") "English (US)" []).1
        fileA (envOk "first take") "English (US)" [] =
      ((processAudio initialState fileA (envOk "first take") "English (US)" []).1, false) ∧
    (processAudio initialState fileA (envOk "first take") "English (US)" []).2 = true := by
  constructor
  · exact (claim_C2 _ fileA (envOk "first take") "English (US)" []).1 (by decide)
  · exact (claim_C2 initialState fileA (envOk "first take") "English (US)" []).2 (by decide)

/-- C6: on a successful transcription the draft is appended to with a
blank-line separator when it is non-empty and replaced when it is empty;
the reset action sets the draft to the empty string and clears the last
processed audio hash. -/
theorem claim_C6 (st : SessionState) (f : AudioFile) (env : Nat → Attempt)
    (lang : String) (ab : List Nat)
    (hnew : st.last_processed_audio_hash ≠ some (audioHash f))
    (hok : hasWarn (transcribe_with_ai ab lang env).result = false) :
    (processAudio st f env lang ab).1.current_text =
      (if st.current_text ≠ "" then
        st.current_text ++ "\n\n" ++ (transcribe_with_ai ab lang env).result
      else (transcribe_with_ai ab lang env).result) ∧
    (resetDraft st).current_text = "" ∧
    (resetDraft st).last_processed_audio_hash = none := by
  refine ⟨?_, rfl, rfl⟩
  simp [processAudio, hnew, hok, appendDraft]

/-- Witness for C6 at an empty draft and a succeeding environment. -/
theorem claim_C6_witness :
    initialState.last_processed_audio_hash ≠ some (audioHash fileA) ∧
    hasWarn (transcribe_with_ai [] "" (envOk "hello")).result = false ∧
    (processAudio initialState fileA (envOk "hello") "" []).1.current_text =
      (if initialState.current_text ≠ "" then
        initialState.current_text ++ "\n\n" ++ (transcribe_with_ai [] "" (envOk "hello")).result
      else (transcribe_with_ai [] "" (envOk "hello")).result) := by
  refine ⟨by decide, by decide, ?_⟩
  exact (claim_C6 initialState fileA (envOk "hello") "" [] (by decide) (by decide)).1

/-- C7: the history list is append-only: every interaction either leaves it
unchanged or appends exactly one entry at its end. -/
theorem claim_C7 (st : SessionState) (op : Op) :
    (applyOp st op).history = st.history ∨
    ∃ e, (applyOp st op).history = st.history ++ [e] := by
  cases op with
  | dictate f env lang ab =>
    left
    simp only [applyOp]
    by_cases h1 : st.last_processed_audio_hash ≠ some (audioHash f)
    · by_cases h2 : hasWarn (transcribe_with_ai ab lang env).result
      · simp [processAudio, h1, h2]
      · simp [processAudio, h1, h2]
    · simp [processAudio, h1]
  | edit s =>
    left
    rfl
  | copyStory =>
    left
    rfl
  | reset =>
    left
    rfl
  | save title lang date =>
    simp only [applyOp]
    by_cases h : st.current_text ≠ ""
    · right
      refine ⟨mkHistoryEntry title st.current_text lang date, ?_⟩
      simp [saveToLibrary, h]
    · left
      simp [saveToLibrary, h]
  | restore idx =>
    left
    simp only [applyOp]
    unfold restoreDraft
    cases st.history.reverse.get? idx with
    | none => rfl
    | some item =>
      dsimp only
      cases List.lookup "text" item with
      | none => rfl
      | some t => rfl

/-- C8: the entry appended by the save handler has exactly the keys title,
text, lang, date; its text is the draft at save time and its language key
is always present. -/
theorem claim_C8 (st : SessionState) (title lang date : String)
    (h : st.current_text ≠ "") :
    (saveToLibrary st title lang date).history =
      st.history ++ [mkHistoryEntry title st.current_text lang date] ∧
    (mkHistoryEntry title st.current_text lang date).map Prod.fst =
      ["title", "text", "lang", "date"] ∧
    List.lookup "title" (mkHistoryEntry title st.current_text lang date) = some title ∧
    List.lookup "text" (mkHistoryEntry title st.current_text lang date) = some st.current_text ∧
    List.lookup "lang" (mkHistoryEntry title st.current_text lang date) = some lang ∧
    List.lookup "date" (mkHistoryEntry title st.current_text lang date) = some date := by
  refine ⟨by simp [saveToLibrary, h], by simp [mkHistoryEntry], ?_, ?_, ?_, ?_⟩ <;>
    simp [mkHistoryEntry, List.lookup]

/-- Witness for C8 at a concrete non-empty draft. -/
theorem claim_C8_witness :
    ("once upon a time" : String) ≠ "" ∧
    (saveToLibrary ⟨[], "once upon a time", none, 0⟩ "Chapter 1" "English (US)"
        "2026-10-12 09:00").history =
      [] ++ [mkHistoryEntry "Chapter 1" "once upon a time" "English (US)" "2026-10-12 09:00"] ∧
    List.lookup "lang"
        (mkHistoryEntry "Chapter 1" "once upon a time" "English (US)" "2026-10-12 09:00") =
      some "English (US)" := by
  refine ⟨by decide, ?_, ?_⟩
  · exact (claim_C8 ⟨[], "once upon a time", none, 0⟩ "Chapter 1" "English (US)"
      "2026-10-12 09:00" (by decide)).1
  · exact (claim_C8 ⟨[], "once upon a time", none, 0⟩ "Chapter 1" "English (US)"
      "2026-10-12 09:00" (by decide)).2.2.2.2.1

/-- C9: failure atomicity of the dictate handler: when the returned string
is treated as a failure the whole session state is unchanged, so offering
the same clip again invokes transcription again; the draft and the hash
are updated only on a result treated as success. -/
theorem claim_C9 (st : SessionState) (f : AudioFile) (env : Nat → Attempt)
    (lang : String) (ab : List Nat)
    (hnew : st.last_processed_audio_hash ≠ some (audioHash f)) :
    (hasWarn (transcribe_with_ai ab lang env).result = true →
      (processAudio st f env lang ab).1 = st ∧
      (processAudio (processAudio st f env lang ab).1 f env lang ab).2 = true) ∧
    (hasWarn (transcribe_with_ai ab lang env).result = false →
      (processAudio st f env lang ab).1.current_text =
        appendDraft st.current_text (transcribe_with_ai ab lang env).result ∧
      (processAudio st f env lang ab).1.last_processed_audio_hash =
        some (audioHash f)) := by
  constructor
  · intro hw
    have hst : (processAudio st f env lang ab).1 = st := by
      simp [processAudio, hnew, hw]
    refine ⟨hst, ?_⟩
    rw [hst]
    simp [processAudio, hnew, hw]
  · intro hok
    constructor
    · simp [processAudio, hnew, hok]
    · simp [processAudio, hnew, hok]

/-- Witness for C9 at a 403 environment whose message carries the marker. -/
theorem claim_C9_witness :
    initialState.last_processed_audio_hash ≠ some (audioHash fileA) ∧
    hasWarn (transcribe_with_ai [] "" env403).result = true ∧
    (processAudio initialState fileA env403 "" []).1 = initialState := by
  refine ⟨by decide, by decide, ?_⟩
  exact ((claim_C9 initialState fileA env403 "" [] (by decide)).1 (by decide)).1

/-- C10: a transcription result is treated as a failure exactly when it
contains the marker somewhere; consequently the genuine transcript
storyWarnText, successfully returned by the backend, is discarded and the
draft stays empty. -/
theorem claim_C10 :
    (∀ (st : SessionState) (f : AudioFile) (env : Nat → Attempt)
      (lang : String) (ab : List Nat),
      st.last_processed_audio_hash ≠ some (audioHash f) →
      ((processAudio st f env lang ab).1 = st ↔
        hasWarn (transcribe_with_ai ab lang env).result = true)) ∧
    (transcribe_with_ai [] "English (US)" envWarnStory).result = storyWarnText ∧
    (transcribe_with_ai [] "English (US)" envWarnStory).requests = 1 ∧
    hasWarn storyWarnText = true ∧
    (processAudio initialState fileA envWarnStory "English (US)" []).1.current_text = "" ∧
    (processAudio initialState fileA envWarnStory "English (US)" []).1 = initialState := by
  refine ⟨?_, by decide, by decide, by decide, by decide, by decide⟩
  intro st f env lang ab hnew
  constructor
  · intro heq
    by_contra hw
    have hw0 : hasWarn (transcribe_with_ai ab lang env).result = false := by
      simpa using hw
    have hl : (processAudio st f env lang ab).1.last_processed_audio_hash =
        some (audioHash f) := by
      simp [processAudio, hnew, hw0]
    rw [heq] at hl
    exact hnew hl
  · intro hw
    simp [processAudio, hnew, hw]

/-- Witness for C10 at a 403 environment and a fresh state. -/
theorem claim_C10_witness :
    initialState.last_processed_audio_hash ≠ some (audioHash fileA) ∧
    ((processAudio initialState fileA env403 "" []).1 = initialState ↔
      hasWarn (transcribe_with_ai [] "" env403).result = true) := by
  exact ⟨by decide, claim_C10.1 initialState fileA env403 "" [] (by decide)⟩

end VoiceApp
